import Mathlib

/-!
Verification of the cross-stack wiring of the `cdk-app-runner` repository.

The repository is a CDK application with four stack classes (network, db,
api, front) plus an auxiliary db-bastion stack.  Its behaviour is embedded
shallowly below:

* configuration documents (`cdk.context.json`) become Lean structures;
* the string-to-enum mapping helpers (`getSubnetType`,
  `getRDSInstanceSize`, `getRDSInstanceClass`) become functions into
  `Except String _`, a `throw new Error(msg)` becoming `.error msg`;
* each stack constructor becomes a function from its props to the record
  of resource declarations it produces (fallible constructors return
  `Except String _`);
* the `bin` entry point (stack instantiations and `addDependency` calls)
  becomes a small program of instructions over stack names;
* the toolkit's dependency/export resolver, which is not part of this
  repository's sources, is modelled from the specification.
-/

/-- The `ec2.SubnetType` values reachable from `getSubnetType` in
`network-stack.ts`. -/
inductive SubnetType where
  | PUBLIC
  | PRIVATE_ISOLATED
  | PRIVATE_WITH_EGRESS
deriving DecidableEq

/-- The `ec2.InstanceSize` values used by the repository (`getRDSInstanceSize`
in `db-stack.ts` and the bastion instance in `db-bastion-stack.ts`). -/
inductive InstanceSize where
  | SMALL
  | MEDIUM
  | LARGE
  | MICRO
deriving DecidableEq

/-- The `ec2.InstanceClass` values used by the repository
(`getRDSInstanceClass` in `db-stack.ts` and the bastion instance). -/
inductive InstanceClass where
  | T3
  | T3A
  | T4G
deriving DecidableEq

/-- The error messages the spec's `UnknownInstanceClassOrSize` taxonomy
label stands for: the two `throw new Error(...)` sites of the enum mappers
in `db-stack.ts`. -/
def unknownInstanceClassOrSizeMessages : List String :=
  ["Invalid instance size", "Invalid instance class"]

/-- `getSubnetType` from `network-stack.ts`: a switch over the configured
subnet-type string; the default branch throws `Error("Invalid subnet type")`. -/
def getSubnetType (subnet : String) : Except String SubnetType :=
  if subnet = "public" then Except.ok SubnetType.PUBLIC
  else if subnet = "isolated" then Except.ok SubnetType.PRIVATE_ISOLATED
  else if subnet = "private" then Except.ok SubnetType.PRIVATE_WITH_EGRESS
  else Except.error "Invalid subnet type"

/-- `getRDSInstanceSize` from `db-stack.ts`: a switch over the configured
instance-size string; the default branch throws `Error("Invalid instance size")`. -/
def getRDSInstanceSize (size : String) : Except String InstanceSize :=
  if size = "small" then Except.ok InstanceSize.SMALL
  else if size = "medium" then Except.ok InstanceSize.MEDIUM
  else if size = "large" then Except.ok InstanceSize.LARGE
  else Except.error "Invalid instance size"

/-- `getRDSInstanceClass` from `db-stack.ts`: a switch over the configured
instance-class string; the default branch throws `Error("Invalid instance class")`. -/
def getRDSInstanceClass (instanceClass : String) : Except String InstanceClass :=
  if instanceClass = "t3" then Except.ok InstanceClass.T3
  else if instanceClass = "t3a" then Except.ok InstanceClass.T3A
  else if instanceClass = "t4g" then Except.ok InstanceClass.T4G
  else Except.error "Invalid instance class"

/-- The subnet-type strings accepted by `getSubnetType`. -/
def validSubnetTypes : List String := ["public", "isolated", "private"]

/-- The instance-size strings accepted by `getRDSInstanceSize`. -/
def validInstanceSizes : List String := ["small", "medium", "large"]

/-- The instance-class strings accepted by `getRDSInstanceClass`. -/
def validInstanceClasses : List String := ["t3", "t3a", "t4g"]

/-! ## Configuration data model (the TS prop types and `cdk.context.json`) -/

/-- One entry of `NetworkProps.vpc.subnetConfiguration`. -/
structure SubnetConfigurationProps where
  cidrMask : Int
  name : String
  subnetType : String
deriving DecidableEq

/-- `NetworkProps.vpc` from `network-stack.ts`.  (The declared
`hostedZoneName` field of `NetworkProps` is never read by the stack and is
absent from the configuration document, so it is not modelled.) -/
structure VpcProps where
  cidr : String
  maxAzs : Int
  subnetConfiguration : List SubnetConfigurationProps
  natGatewaysCount : Int
deriving DecidableEq

/-- `NetworkProps` from `network-stack.ts`. -/
structure NetworkProps where
  vpc : VpcProps
deriving DecidableEq

/-- Writer or reader entry of `DBProps.cluster.instance`. -/
structure DBInstanceProps where
  instanceSize : String
  instanceClass : String
deriving DecidableEq

/-- `DBProps.cluster.instance` from `db-stack.ts`. -/
structure DBInstancePairProps where
  writer : DBInstanceProps
  reader : DBInstanceProps
deriving DecidableEq

/-- `DBProps.cluster.backup` from `db-stack.ts`. -/
structure DBBackupProps where
  retention : Int
  preferredWindow : String
deriving DecidableEq

/-- `DBProps.cluster.scalableTarget` from `db-stack.ts`. -/
structure DBScalableTargetProps where
  minCapacity : Int
  maxCapacity : Int
  targetValue : Int
  scaleInCooldown : Int
  scaleOutCooldown : Int
deriving DecidableEq

/-- `DBProps.cluster` from `db-stack.ts`. -/
structure DBClusterProps where
  preferredMaintenanceWindow : String
  backtrackWindow : Int
  «instance» : DBInstancePairProps
  backup : DBBackupProps
  scalableTarget : DBScalableTargetProps
deriving DecidableEq

/-- `DBProps` from `db-stack.ts`. -/
structure DBProps where
  cluster : DBClusterProps
deriving DecidableEq

/-- `AppRunnerProps.healthCheck` from `api-stack.ts`. -/
structure HealthCheckProps where
  interval : Int
  path : String
  timeout : Int
  healthyThreshold : Int
  unhealthyThreshold : Int
  protocol : String
deriving DecidableEq

/-- `AppRunnerProps` from `api-stack.ts`. -/
structure AppRunnerProps where
  cpu : Int
  memory : Int
  healthCheck : HealthCheckProps
deriving DecidableEq

/-- `APIProps` from `api-stack.ts`. -/
structure APIProps where
  appRunner : AppRunnerProps
deriving DecidableEq

/-- `EnvProps` from `bin/deploy.ts`: the per-environment configuration
subtree. -/
structure EnvProps where
  api : APIProps
  network : NetworkProps
  db : DBProps
deriving DecidableEq

/-- The `dev.network` subtree of `cdk.context.json`. -/
def devNetworkProps : NetworkProps :=
  { vpc :=
    { cidr := "10.0.0.0/16"
      maxAzs := 2
      subnetConfiguration :=
        [ { cidrMask := 20, name := "private", subnetType := "private" }
        , { cidrMask := 20, name := "public", subnetType := "public" } ]
      natGatewaysCount := 1 } }

/-- The `dev.db` subtree of `cdk.context.json`. -/
def devDBProps : DBProps :=
  { cluster :=
    { preferredMaintenanceWindow := "sat:18:30-sat:19:00"
      backtrackWindow := 3600
      «instance» :=
        { writer := { instanceSize := "medium", instanceClass := "t3" }
          reader := { instanceSize := "medium", instanceClass := "t3" } }
      backup := { retention := 1, preferredWindow := "17:30-18:00" }
      scalableTarget :=
        { minCapacity := 2
          maxCapacity := 4
          targetValue := 70
          scaleInCooldown := 300
          scaleOutCooldown := 1800 } } }

/-- The `dev.api` subtree of `cdk.context.json`. -/
def devAPIProps : APIProps :=
  { appRunner :=
    { cpu := 1024
      memory := 2048
      healthCheck :=
        { interval := 15
          path := "/"
          timeout := 10
          healthyThreshold := 1
          unhealthyThreshold := 5
          protocol := "HTTP" } } }

/-- The whole `cdk.context.json` document: a mapping from environment name
to its configuration subtree (only `dev` is present). -/
def devContext : List (String × EnvProps) :=
  [("dev", { api := devAPIProps, network := devNetworkProps, db := devDBProps })]

/-- `app.node.tryGetContext(key)`: looks the key up in the context
document, returning `none` when the key is absent (CDK returns
`undefined`). -/
def tryGetContext (doc : List (String × EnvProps)) (key : String) : Option EnvProps :=
  (doc.find? (fun kv => kv.1 == key)).map Prod.snd

/-- The configuration resolution performed by `bin/deploy.ts`:
`app.node.tryGetContext(envType) as EnvProps` followed by destructuring
into `{api, network, db}`.  When the environment key is absent the
destructuring of `undefined` aborts the run; the spec's taxonomy names
this failure `UnknownEnvironment`. -/
def resolveEnvConfig (doc : List (String × EnvProps)) (env : String) :
    Except String EnvProps :=
  match tryGetContext doc env with
  | some v => Except.ok v
  | none => Except.error "UnknownEnvironment"

/-! ## Resource declaration model -/

/-- A peer of an ingress rule (`ec2.Peer.anyIpv4()`, a security group
created in the same stack, or one imported by `Fn.importValue`). -/
inductive PeerModel where
  | anyIpv4
  | securityGroup (securityGroupName : String)
  | importedSecurityGroup (exportName : String)
deriving DecidableEq

/-- `ec2.Port.tcp(n)`. -/
inductive PortModel where
  | tcp (port : Int)
deriving DecidableEq

/-- One `addIngressRule` call. -/
structure IngressRuleModel where
  peer : PeerModel
  port : PortModel
  description : String
deriving DecidableEq

/-- An `ec2.SecurityGroup` declaration together with the ingress rules
added to it inside its own stack. -/
structure SecurityGroupModel where
  securityGroupName : String
  allowAllOutbound : Bool
  ingressRules : List IngressRuleModel
deriving DecidableEq

/-- A subnet selection (`vpc.selectSubnets`/`vpcSubnets`). -/
inductive SubnetSelectionModel where
  | vpcPublicSubnets
  | ofType (subnetType : SubnetType)
deriving DecidableEq

/-- One resolved entry of the VPC's `subnetConfiguration`. -/
structure SubnetConfigurationModel where
  cidrMask : Int
  name : String
  subnetType : SubnetType
deriving DecidableEq

/-- The `ec2.Vpc` declaration of `network-stack.ts`. -/
structure VpcModel where
  vpcName : String
  cidr : String
  maxAzs : Int
  subnetConfiguration : List SubnetConfigurationModel
  natGateways : Int
deriving DecidableEq

/-- The `apprunner.VpcConnector` declaration of `network-stack.ts`. -/
structure VpcConnectorModel where
  vpcConnectorName : String
  vpcSubnets : SubnetSelectionModel
  securityGroups : List String
deriving DecidableEq

/-- The resources declared by `NetworkStack`. -/
structure NetworkStackModel where
  vpc : VpcModel
  connectorSecurityGroup : SecurityGroupModel
  vpcConnector : VpcConnectorModel
  exportNames : List String
deriving DecidableEq

/-- Resolves the configured subnet-type strings entry by entry, exactly as
the `subnetConfiguration.map` callback of `newVPC` does; the first invalid
entry aborts the construction. -/
def mapSubnetConfigurations :
    List SubnetConfigurationProps → Except String (List SubnetConfigurationModel)
  | [] => Except.ok []
  | sc :: rest => do
    let t ← getSubnetType sc.subnetType
    let others ← mapSubnetConfigurations rest
    Except.ok ({ cidrMask := sc.cidrMask, name := sc.name, subnetType := t } :: others)

/-- The `NetworkStack` constructor (`newVPC` then `newVPCConnector`): its
two `CfnOutput`s export `vpc-connector-sg-id` and `vpc-connector-arn`. -/
def buildNetworkStack (p : NetworkProps) : Except String NetworkStackModel := do
  let subnets ← mapSubnetConfigurations p.vpc.subnetConfiguration
  Except.ok
    { vpc :=
      { vpcName := "vpc"
        cidr := p.vpc.cidr
        maxAzs := p.vpc.maxAzs
        subnetConfiguration := subnets
        natGateways := p.vpc.natGatewaysCount }
      connectorSecurityGroup :=
        { securityGroupName := "vpc-connector-sg"
          allowAllOutbound := true
          ingressRules := [] }
      vpcConnector :=
        { vpcConnectorName := "vpc-connector"
          vpcSubnets := SubnetSelectionModel.ofType SubnetType.PRIVATE_WITH_EGRESS
          securityGroups := ["vpc-connector-sg"] }
      exportNames := ["vpc-connector-sg-id", "vpc-connector-arn"] }

/-- One writer or reader `rds.ClusterInstance.provisioned` declaration. -/
structure DBInstanceModel where
  instanceIdentifier : String
  instanceClass : InstanceClass
  instanceSize : InstanceSize
deriving DecidableEq

/-- The `rds.DatabaseCluster` declaration of `db-stack.ts`. -/
structure DBClusterModel where
  defaultDatabaseName : String
  clusterIdentifier : String
  securityGroups : List String
  preferredMaintenanceWindow : String
  storageEncrypted : Bool
  backtrackWindowSeconds : Int
  writer : DBInstanceModel
  readers : List DBInstanceModel
  backupRetentionDays : Int
  backupPreferredWindow : String
  deletionProtection : Bool
deriving DecidableEq

/-- The `appscaling.ScalableTarget` declaration of `db-stack.ts`. -/
structure ScalableTargetModel where
  serviceNamespace : String
  maxCapacity : Int
  minCapacity : Int
  resourceId : String
  scalableDimension : String
deriving DecidableEq

/-- The `scaleToTrackMetric` policy of `db-stack.ts`. -/
structure ScalingPolicyModel where
  policyName : String
  targetValue : Int
  predefinedMetric : String
  scaleInCooldownSeconds : Int
  scaleOutCooldownSeconds : Int
deriving DecidableEq

/-- The resources declared by `DBStack`. -/
structure DBStackModel where
  roleName : String
  securityGroup : SecurityGroupModel
  subnetGroupSubnetType : SubnetType
  cluster : DBClusterModel
  scalableTarget : ScalableTargetModel
  scalingPolicy : ScalingPolicyModel
  exportNames : List String
deriving DecidableEq

/-- The `DBStack` constructor: role, security group (exporting
`db-sg-id`), parameter groups, subnet group, then `newCluster`, whose
writer and reader instance types run the two enum mappers. -/
def buildDBStack (p : DBProps) : Except String DBStackModel := do
  let writerClass ← getRDSInstanceClass p.cluster.«instance».writer.instanceClass
  let writerSize ← getRDSInstanceSize p.cluster.«instance».writer.instanceSize
  let readerClass ← getRDSInstanceClass p.cluster.«instance».reader.instanceClass
  let readerSize ← getRDSInstanceSize p.cluster.«instance».reader.instanceSize
  Except.ok
    { roleName := "db-role"
      securityGroup :=
        { securityGroupName := "db-sg"
          allowAllOutbound := true
          ingressRules := [] }
      subnetGroupSubnetType := SubnetType.PRIVATE_WITH_EGRESS
      cluster :=
        { defaultDatabaseName := "db"
          clusterIdentifier := "db-cluster"
          securityGroups := ["db-sg"]
          preferredMaintenanceWindow := p.cluster.preferredMaintenanceWindow
          storageEncrypted := true
          backtrackWindowSeconds := p.cluster.backtrackWindow
          writer :=
            { instanceIdentifier := "instance1"
              instanceClass := writerClass
              instanceSize := writerSize }
          readers :=
            [ { instanceIdentifier := "instance2"
                instanceClass := readerClass
                instanceSize := readerSize } ]
          backupRetentionDays := p.cluster.backup.retention
          backupPreferredWindow := p.cluster.backup.preferredWindow
          deletionProtection := true }
      scalableTarget :=
        { serviceNamespace := "rds"
          maxCapacity := p.cluster.scalableTarget.maxCapacity
          minCapacity := p.cluster.scalableTarget.minCapacity
          resourceId := "cluster:db-cluster"
          scalableDimension := "rds:cluster:ReadReplicaCount" }
      scalingPolicy :=
        { policyName := "db-scale-policy"
          targetValue := p.cluster.scalableTarget.targetValue
          predefinedMetric := "RDSReaderAverageCPUUtilization"
          scaleInCooldownSeconds := p.cluster.scalableTarget.scaleInCooldown
          scaleOutCooldownSeconds := p.cluster.scalableTarget.scaleOutCooldown }
      exportNames := ["db-sg-id"] }

/-- The `aws_apprunner.CfnService` declaration of `api-stack.ts`. -/
structure AppRunnerServiceModel where
  serviceName : String
  autoDeploymentsEnabled : Bool
  imageIdentifier : String
  imageRepositoryType : String
  imagePort : String
  healthCheckInterval : Int
  healthCheckPath : String
  healthCheckTimeout : Int
  healthCheckHealthyThreshold : Int
  healthCheckUnhealthyThreshold : Int
  healthCheckProtocol : String
  cpu : String
  memory : String
  egressType : String
  vpcConnectorArnImport : String
  isPubliclyAccessible : Bool
deriving DecidableEq

/-- The resources declared by `APIStack`. -/
structure APIStackModel where
  repositoryName : String
  dockerfile : String
  ingressRulesAdded : List (String × IngressRuleModel)
  importedExportNames : List String
  appRunner : AppRunnerServiceModel
  exportNames : List String
deriving DecidableEq

/-- The `APIStack` constructor (`imageBuildAndPush`, `addIngessRuleFromAPI`,
`newAppRunner`, `newWAF`).  `repositoryUri` stands for the created ECR
repository's URI token (`this.repository.repositoryUri`), which the cloud
provider determines from account and region. -/
def buildAPIStack (envType commitHash repositoryUri : String) (p : APIProps) :
    APIStackModel :=
  { repositoryName := "api"
    dockerfile := "build/" ++ envType ++ "/Dockerfile"
    ingressRulesAdded :=
      [ ("db-sg-id",
          { peer := PeerModel.importedSecurityGroup "vpc-connector-sg-id"
            port := PortModel.tcp 3306
            description := "Allow API" }) ]
    importedExportNames := ["vpc-connector-sg-id", "db-sg-id", "vpc-connector-arn"]
    appRunner :=
      { serviceName := "api"
        autoDeploymentsEnabled := true
        imageIdentifier := repositoryUri ++ ":" ++ commitHash
        imageRepositoryType := "ECR"
        imagePort := toString (4000 : Int)
        healthCheckInterval := p.appRunner.healthCheck.interval
        healthCheckPath := p.appRunner.healthCheck.path
        healthCheckTimeout := p.appRunner.healthCheck.timeout
        healthCheckHealthyThreshold := p.appRunner.healthCheck.healthyThreshold
        healthCheckUnhealthyThreshold := p.appRunner.healthCheck.unhealthyThreshold
        healthCheckProtocol := p.appRunner.healthCheck.protocol
        cpu := toString p.appRunner.cpu
        memory := toString p.appRunner.memory
        egressType := "VPC"
        vpcConnectorArnImport := "vpc-connector-arn"
        isPubliclyAccessible := true }
    exportNames := [] }

/-- The `ec2.Instance` declaration of `db-bastion-stack.ts`. -/
structure Ec2InstanceModel where
  instanceName : String
  securityGroupName : String
  instanceClass : InstanceClass
  instanceSize : InstanceSize
  vpcSubnets : SubnetSelectionModel
  keyName : String
deriving DecidableEq

/-- The resources declared by `DBBastionStack`. -/
structure DBBastionStackModel where
  bastionSecurityGroup : SecurityGroupModel
  ingressRulesAdded : List (String × IngressRuleModel)
  importedExportNames : List String
  bastionInstance : Ec2InstanceModel
deriving DecidableEq

/-- The `DBBastionStack` constructor: a bastion security group open on
TCP 22 to any IPv4, an ingress rule on the imported `db-sg-id` group from
the bastion group on TCP 3306, and a t3.micro instance in the VPC's
public subnets. -/
def buildDBBastionStack : DBBastionStackModel :=
  { bastionSecurityGroup :=
      { securityGroupName := "db-bastion-sg"
        allowAllOutbound := true
        ingressRules :=
          [ { peer := PeerModel.anyIpv4
              port := PortModel.tcp 22
              description := "Allow SSH" } ] }
    ingressRulesAdded :=
      [ ("db-sg-id",
          { peer := PeerModel.securityGroup "db-bastion-sg"
            port := PortModel.tcp 3306
            description := "Allow Bastion" }) ]
    importedExportNames := ["db-sg-id"]
    bastionInstance :=
      { instanceName := "db-bastion"
        securityGroupName := "db-bastion-sg"
        instanceClass := InstanceClass.T3
        instanceSize := InstanceSize.MICRO
        vpcSubnets := SubnetSelectionModel.vpcPublicSubnets
        keyName := "db-bastion-key" } }

/-! ## The application composition (`bin/deploy.ts`) -/

/-- One statement of the `bin` entry point that shapes the stack graph:
a stack instantiation or an `addDependency` call. -/
inductive BinOp where
  | newStack (stackName : String)
  | addDependency (dependent dependency : String)
deriving DecidableEq

/-- The `bin` entry point, statement by statement: `network-stack`,
`db-stack` (depending on the network stack), and `api-stack` (depending
on both). -/
def binProgram : List BinOp :=
  [ BinOp.newStack "network-stack"
  , BinOp.newStack "db-stack"
  , BinOp.addDependency "db-stack" "network-stack"
  , BinOp.newStack "api-stack"
  , BinOp.addDependency "api-stack" "network-stack"
  , BinOp.addDependency "api-stack" "db-stack" ]

/-- The stacks instantiated by a bin program, in order. -/
def stacksOf (prog : List BinOp) : List String :=
  prog.filterMap fun op =>
    match op with
    | BinOp.newStack n => some n
    | BinOp.addDependency _ _ => none

/-- The dependency edges (dependent, dependency) declared by a bin
program, in order. -/
def edgesOf (prog : List BinOp) : List (String × String) :=
  prog.filterMap fun op =>
    match op with
    | BinOp.newStack _ => none
    | BinOp.addDependency a b => some (a, b)

/-- `FrontStack` declares no `addDependency` on any other stack. -/
def frontStackDeclaredDependencies : List String := []

/-- The export names produced by each stack class of the composition (the
`CfnOutput` declarations of `network-stack.ts` and `db-stack.ts`). -/
def exportsOf (stack : String) : List String :=
  if stack = "network-stack" then ["vpc-connector-sg-id", "vpc-connector-arn"]
  else if stack = "db-stack" then ["db-sg-id"]
  else []

/-- The export names imported (`Fn.importValue`) by each stack class of
the composition: only `api-stack` imports, in `addIngessRuleFromAPI` and
`newAppRunner`. -/
def importsOf (stack : String) : List String :=
  if stack = "api-stack" then ["vpc-connector-sg-id", "db-sg-id", "vpc-connector-arn"]
  else []

/-- An apply order is valid for a set of dependency edges when it is a
permutation of the stack set in which every dependency comes strictly
before its dependent. -/
def validApplyOrder (edges : List (String × String)) (stackSet order : List String) :
    Prop :=
  order.Perm stackSet ∧ ∀ e ∈ edges, order.indexOf e.2 < order.indexOf e.1

instance (edges : List (String × String)) (stackSet order : List String) :
    Decidable (validApplyOrder edges stackSet order) :=
  inferInstanceAs (Decidable (_ ∧ _))

/-! ## Synthesis pipeline -/

/-- The resources of one complete synthesis. -/
structure AppModel where
  network : NetworkStackModel
  db : DBStackModel
  api : APIStackModel
deriving DecidableEq

/-- One run of the CDK app: resolve the environment's configuration
subtree, then construct the three instantiated stacks.  Any `throw`
during construction aborts synthesis before a template exists. -/
def synthApp (doc : List (String × EnvProps)) (env commit repositoryUri : String) :
    Except String AppModel := do
  let envProps ← resolveEnvConfig doc env
  let network ← buildNetworkStack envProps.network
  let db ← buildDBStack envProps.db
  let api := buildAPIStack env commit repositoryUri envProps.api
  Except.ok { network := network, db := db, api := api }

/-- Plan-then-apply: the deploy tool applies exactly the resource
declarations of a successful synthesis; a failed synthesis applies
nothing. -/
def appliedResources {α : Type} (r : Except String α) : Option α :=
  match r with
  | Except.ok a => some a
  | Except.error _ => none

/-- A configuration's DB subtree holds an invalid enum value: a writer or
reader instance size or class outside the accepted strings. -/
def dbPropsInvalidEnum (p : DBProps) : Prop :=
  p.cluster.«instance».writer.instanceSize ∉ validInstanceSizes ∨
  p.cluster.«instance».writer.instanceClass ∉ validInstanceClasses ∨
  p.cluster.«instance».reader.instanceSize ∉ validInstanceSizes ∨
  p.cluster.«instance».reader.instanceClass ∉ validInstanceClasses

/-- A configuration's network subtree holds an invalid subnet-type
string. -/
def networkPropsInvalidSubnet (p : NetworkProps) : Prop :=
  ∃ sc ∈ p.vpc.subnetConfiguration, sc.subnetType ∉ validSubnetTypes

/-! ## Dependency/Export Resolver

Modelled from the spec: the deploy toolkit's dependency/export resolver
(spec section 4.1) is not part of this repository's sources, so it is
modelled here from the specification's contract: given a set of stacks
each declaring required and produced export names, compute an application
order in which every stack follows all producers of its required exports;
fail with `CyclicDependency` when no such order exists and with
`UnresolvedExport` when a required export has no producer in the set. -/

/-- The resolver's error taxonomy (spec section 7). -/
inductive DepError where
  | CyclicDependency
  | UnresolvedExport
deriving DecidableEq

/-- Modelled from the spec: a stack as the resolver sees it, with its
declared required and produced export names (spec section 4.1). -/
structure SpecStack where
  stackName : String
  requiredExports : List String
  producedExports : List String
deriving DecidableEq

/-- `s` depends on `t` when `t` produces an export `s` requires. -/
def dependsOn (s t : SpecStack) : Prop :=
  ∃ e ∈ s.requiredExports, e ∈ t.producedExports

instance (s t : SpecStack) : Decidable (dependsOn s t) :=
  inferInstanceAs (Decidable (∃ e ∈ s.requiredExports, e ∈ t.producedExports))

/-- A stack may be applied once every producer (within the whole set) of
each of its required exports has already been applied. -/
def isReady (all placed : List SpecStack) (s : SpecStack) : Prop :=
  ∀ e ∈ s.requiredExports, ∀ t ∈ all, e ∈ t.producedExports → t ∈ placed

instance (all placed : List SpecStack) (s : SpecStack) : Decidable (isReady all placed s) :=
  inferInstanceAs
    (Decidable (∀ e ∈ s.requiredExports, ∀ t ∈ all, e ∈ t.producedExports → t ∈ placed))

/-- Modelled from the spec: the scheduling loop.  At each step it applies
some stack whose producers have all been applied; if none is available
while stacks remain, the remainder is cyclic. -/
def kahnAux (all : List SpecStack) :
    Nat → List SpecStack → List SpecStack → Except DepError (List SpecStack)
  | _, [], placed => Except.ok placed.reverse
  | 0, _ :: _, _ => Except.error DepError.CyclicDependency
  | fuel + 1, r :: rs, placed =>
    match (r :: rs).find? (fun s => decide (isReady all placed s)) with
    | none => Except.error DepError.CyclicDependency
    | some s => kahnAux all fuel ((r :: rs).erase s) (s :: placed)

/-- Modelled from the spec: the resolver first checks every required
export against the set's producers (`UnresolvedExport`), then schedules
(`CyclicDependency`). -/
def resolveOrder (stackSet : List SpecStack) : Except DepError (List SpecStack) :=
  if ∀ s ∈ stackSet, ∀ e ∈ s.requiredExports, ∃ t ∈ stackSet, e ∈ t.producedExports
  then kahnAux stackSet stackSet.length stackSet []
  else Except.error DepError.UnresolvedExport

/-- Some stack of the set requires an export no stack of the set
produces. -/
def hasUnresolvedExport (stackSet : List SpecStack) : Prop :=
  ∃ s ∈ stackSet, ∃ e ∈ s.requiredExports, ∀ t ∈ stackSet, e ∉ t.producedExports

instance (stackSet : List SpecStack) : Decidable (hasUnresolvedExport stackSet) :=
  inferInstanceAs
    (Decidable (∃ s ∈ stackSet, ∃ e ∈ s.requiredExports, ∀ t ∈ stackSet, e ∉ t.producedExports))

/-- A valid application order of a stack set: a permutation of the set in
which no stack precedes a producer of one of its required exports (in
particular no stack requires one of its own exports). -/
def validOrder (stackSet order : List SpecStack) : Prop :=
  order.Perm stackSet ∧
  order.Pairwise (fun a b => ¬ dependsOn a b) ∧
  ∀ s ∈ order, ¬ dependsOn s s

/-- The resource record `buildDBStack` produces from the `dev`
configuration. -/
def devDBStackModel : DBStackModel :=
  { roleName := "db-role"
    securityGroup :=
      { securityGroupName := "db-sg", allowAllOutbound := true, ingressRules := [] }
    subnetGroupSubnetType := SubnetType.PRIVATE_WITH_EGRESS
    cluster :=
      { defaultDatabaseName := "db"
        clusterIdentifier := "db-cluster"
        securityGroups := ["db-sg"]
        preferredMaintenanceWindow := "sat:18:30-sat:19:00"
        storageEncrypted := true
        backtrackWindowSeconds := 3600
        writer :=
          { instanceIdentifier := "instance1"
            instanceClass := InstanceClass.T3
            instanceSize := InstanceSize.MEDIUM }
        readers :=
          [ { instanceIdentifier := "instance2"
              instanceClass := InstanceClass.T3
              instanceSize := InstanceSize.MEDIUM } ]
        backupRetentionDays := 1
        backupPreferredWindow := "17:30-18:00"
        deletionProtection := true }
    scalableTarget :=
      { serviceNamespace := "rds"
        maxCapacity := 4
        minCapacity := 2
        resourceId := "cluster:db-cluster"
        scalableDimension := "rds:cluster:ReadReplicaCount" }
    scalingPolicy :=
      { policyName := "db-scale-policy"
        targetValue := 70
        predefinedMetric := "RDSReaderAverageCPUUtilization"
        scaleInCooldownSeconds := 300
        scaleOutCooldownSeconds := 1800 }
    exportNames := ["db-sg-id"] }

/-! ## Helper lemmas -/

theorem except_bind_ok_left {ε α β : Type} (a : α) (f : α → Except ε β) :
    (Except.ok a : Except ε α) >>= f = f a := rfl

theorem except_bind_error_left {ε α β : Type} (e : ε) (f : α → Except ε β) :
    (Except.error e : Except ε α) >>= f = (Except.error e : Except ε β) := rfl

theorem getSubnetType_invalid (s : String) (h : s ∉ validSubnetTypes) :
    getSubnetType s = Except.error "Invalid subnet type" := by
  simp only [validSubnetTypes, List.mem_cons, List.not_mem_nil, or_false, not_or] at h
  simp [getSubnetType, h.1, h.2.1, h.2.2]

theorem getSubnetType_ok_of_valid (s : String) (h : s ∈ validSubnetTypes) :
    ∃ t, getSubnetType s = Except.ok t := by
  simp only [validSubnetTypes, List.mem_cons, List.not_mem_nil, or_false] at h
  rcases h with rfl | rfl | rfl <;> exact ⟨_, rfl⟩

theorem getRDSInstanceSize_invalid (s : String) (h : s ∉ validInstanceSizes) :
    getRDSInstanceSize s = Except.error "Invalid instance size" := by
  simp only [validInstanceSizes, List.mem_cons, List.not_mem_nil, or_false, not_or] at h
  simp [getRDSInstanceSize, h.1, h.2.1, h.2.2]

theorem getRDSInstanceSize_ok_mem (s : String) (c : InstanceSize)
    (h : getRDSInstanceSize s = Except.ok c) : s ∈ validInstanceSizes := by
  by_contra hn
  rw [getRDSInstanceSize_invalid s hn] at h
  exact Except.noConfusion h

theorem getRDSInstanceClass_invalid (s : String) (h : s ∉ validInstanceClasses) :
    getRDSInstanceClass s = Except.error "Invalid instance class" := by
  simp only [validInstanceClasses, List.mem_cons, List.not_mem_nil, or_false, not_or] at h
  simp [getRDSInstanceClass, h.1, h.2.1, h.2.2]

theorem getRDSInstanceClass_ok_mem (s : String) (c : InstanceClass)
    (h : getRDSInstanceClass s = Except.ok c) : s ∈ validInstanceClasses := by
  by_contra hn
  rw [getRDSInstanceClass_invalid s hn] at h
  exact Except.noConfusion h

/-! ## C3: the instance size and class mappings -/

/-- C3: `getRDSInstanceSize` maps exactly `"small"/"medium"/"large"` to the
SMALL/MEDIUM/LARGE tiers and fails on every other string, and
`getRDSInstanceClass` maps exactly `"t3"/"t3a"/"t4g"` to the T3/T3A/T4G
classes and fails on every other string; both failures carry an error the
spec's taxonomy labels `UnknownInstanceClassOrSize`. -/
theorem spec_c3_instance_enum_mappings : ∀ s : String,
    (getRDSInstanceSize s = Except.ok InstanceSize.SMALL ↔ s = "small") ∧
    (getRDSInstanceSize s = Except.ok InstanceSize.MEDIUM ↔ s = "medium") ∧
    (getRDSInstanceSize s = Except.ok InstanceSize.LARGE ↔ s = "large") ∧
    (s ∉ validInstanceSizes →
      getRDSInstanceSize s = Except.error "Invalid instance size" ∧
      "Invalid instance size" ∈ unknownInstanceClassOrSizeMessages) ∧
    (getRDSInstanceClass s = Except.ok InstanceClass.T3 ↔ s = "t3") ∧
    (getRDSInstanceClass s = Except.ok InstanceClass.T3A ↔ s = "t3a") ∧
    (getRDSInstanceClass s = Except.ok InstanceClass.T4G ↔ s = "t4g") ∧
    (s ∉ validInstanceClasses →
      getRDSInstanceClass s = Except.error "Invalid instance class" ∧
      "Invalid instance class" ∈ unknownInstanceClassOrSizeMessages) := by
  intro s
  refine ⟨?_, ?_, ?_, ?_, ?_, ?_, ?_, ?_⟩
  · unfold getRDSInstanceSize
    split_ifs with h1 h2 h3 <;> simp_all
  · unfold getRDSInstanceSize
    split_ifs with h1 h2 h3 <;> simp_all
  · unfold getRDSInstanceSize
    split_ifs with h1 h2 h3 <;> simp_all
  · intro h
    exact ⟨getRDSInstanceSize_invalid s h, by simp [unknownInstanceClassOrSizeMessages]⟩
  · unfold getRDSInstanceClass
    split_ifs with h1 h2 h3 <;> simp_all
  · unfold getRDSInstanceClass
    split_ifs with h1 h2 h3 <;> simp_all
  · unfold getRDSInstanceClass
    split_ifs with h1 h2 h3 <;> simp_all
  · intro h
    exact ⟨getRDSInstanceClass_invalid s h, by simp [unknownInstanceClassOrSizeMessages]⟩

/-- Witness for C3 at the rejected input `"xlarge"`. -/
theorem spec_c3_witness :
    getRDSInstanceSize "xlarge" = Except.error "Invalid instance size" ∧
    "Invalid instance size" ∈ unknownInstanceClassOrSizeMessages :=
  (spec_c3_instance_enum_mappings "xlarge").2.2.2.1 (by decide)

/-! ## C10: the subnet-type mapping -/

/-- C10: `getSubnetType` maps exactly `"public"/"isolated"/"private"` to
PUBLIC/PRIVATE_ISOLATED/PRIVATE_WITH_EGRESS and throws on every other
string, and that thrown error is outside the spec's
`UnknownInstanceClassOrSize` family, the taxonomy's only label for
invalid enum values. -/
theorem spec_c10_subnet_type_mapping : ∀ s : String,
    (getSubnetType s = Except.ok SubnetType.PUBLIC ↔ s = "public") ∧
    (getSubnetType s = Except.ok SubnetType.PRIVATE_ISOLATED ↔ s = "isolated") ∧
    (getSubnetType s = Except.ok SubnetType.PRIVATE_WITH_EGRESS ↔ s = "private") ∧
    (s ∉ validSubnetTypes →
      getSubnetType s = Except.error "Invalid subnet type" ∧
      "Invalid subnet type" ∉ unknownInstanceClassOrSizeMessages) := by
  intro s
  refine ⟨?_, ?_, ?_, ?_⟩
  · unfold getSubnetType
    split_ifs with h1 h2 h3 <;> simp_all
  · unfold getSubnetType
    split_ifs with h1 h2 h3 <;> simp_all
  · unfold getSubnetType
    split_ifs with h1 h2 h3 <;> simp_all
  · intro h
    exact ⟨getSubnetType_invalid s h, by simp [unknownInstanceClassOrSizeMessages]⟩

/-- Witness for C10 at the rejected input `"foo"`. -/
theorem spec_c10_witness :
    getSubnetType "foo" = Except.error "Invalid subnet type" ∧
    "Invalid subnet type" ∉ unknownInstanceClassOrSizeMessages :=
  (spec_c10_subnet_type_mapping "foo").2.2.2 (by decide)

/-! ## C4: the configuration resolver -/

/-- C4: for any configuration document and environment name, the resolver
returns the environment's configuration subtree when the key is present
and fails with `UnknownEnvironment` when it is absent. -/
theorem spec_c4_environment_resolution :
    ∀ (doc : List (String × EnvProps)) (env : String),
      (∀ v, tryGetContext doc env = some v →
        resolveEnvConfig doc env = Except.ok v) ∧
      (tryGetContext doc env = none →
        resolveEnvConfig doc env = Except.error "UnknownEnvironment") := by
  intro doc env
  constructor
  · intro v h
    simp [resolveEnvConfig, h]
  · intro h
    simp [resolveEnvConfig, h]

/-- Witness for C4: the `dev` key of `cdk.context.json` resolves to its
subtree and the absent `prod` key fails with `UnknownEnvironment`. -/
theorem spec_c4_witness :
    resolveEnvConfig devContext "dev" =
      Except.ok { api := devAPIProps, network := devNetworkProps, db := devDBProps } ∧
    resolveEnvConfig devContext "prod" = Except.error "UnknownEnvironment" :=
  ⟨(spec_c4_environment_resolution devContext "dev").1
      { api := devAPIProps, network := devNetworkProps, db := devDBProps } (by decide),
   (spec_c4_environment_resolution devContext "prod").2 (by decide)⟩

/-! ## C8: the release identifier is the image tag -/

/-- C8: for every release identifier, the App Runner service's image
identifier is the repository URI suffixed with `:` and that identifier,
unchanged. -/
theorem spec_c8_image_tag :
    ∀ (envType commitHash repositoryUri : String) (p : APIProps),
      (buildAPIStack envType commitHash repositoryUri p).appRunner.imageIdentifier =
        repositoryUri ++ ":" ++ commitHash := by
  intro envType commitHash repositoryUri p
  rfl

/-! ## C9: the DB bastion stack -/

/-- C9: the bastion security group allows inbound TCP 22 from any IPv4,
an inbound TCP 3306 rule from the bastion group is added to the security
group imported under `db-sg-id`, and the bastion instance is placed in
the VPC's public subnets. -/
theorem spec_c9_bastion_rules :
    ({ peer := PeerModel.anyIpv4, port := PortModel.tcp 22,
       description := "Allow SSH" } : IngressRuleModel)
        ∈ buildDBBastionStack.bastionSecurityGroup.ingressRules ∧
    ("db-sg-id",
      ({ peer := PeerModel.securityGroup "db-bastion-sg", port := PortModel.tcp 3306,
         description := "Allow Bastion" } : IngressRuleModel))
        ∈ buildDBBastionStack.ingressRulesAdded ∧
    buildDBBastionStack.bastionInstance.vpcSubnets = SubnetSelectionModel.vpcPublicSubnets := by
  refine ⟨?_, ?_, rfl⟩ <;> simp [buildDBBastionStack]

/-! ## C2: imports are backed by declared dependencies -/

/-- C2: every export name imported by an instantiated stack is produced
by a stack it declares a hard dependency on; in particular the API
stack's three imports are exported by the network stack
(`vpc-connector-sg-id`, `vpc-connector-arn`) and the database stack
(`db-sg-id`). -/
theorem spec_c2_exports_match_dependencies :
    (∀ s ∈ stacksOf binProgram, ∀ e ∈ importsOf s,
        ∃ t ∈ stacksOf binProgram, (s, t) ∈ edgesOf binProgram ∧ e ∈ exportsOf t) ∧
    "vpc-connector-sg-id" ∈ exportsOf "network-stack" ∧
    "vpc-connector-arn" ∈ exportsOf "network-stack" ∧
    "db-sg-id" ∈ exportsOf "db-stack" ∧
    importsOf "api-stack" = ["vpc-connector-sg-id", "db-sg-id", "vpc-connector-arn"] := by
  decide

/-! ## C1: the declared dependency edges and the unique apply order -/

theorem perm_elim {P : List String → Prop} (l : List String)
    (h : ∀ o ∈ l.permutations', P o) : ∀ o, o.Perm l → P o :=
  fun o ho => h o (List.mem_permutations'.mpr ho)

/-- C1: the bin composition instantiates the network, db and api stacks
and declares exactly the edges db→network, api→network and api→db; the
front stack declares no dependency; the `dev` configuration resolves
without error; over the three dependent stacks the only valid apply order
is `[network, db, api]`, and with the independent front stack added the
valid orders are exactly the four insertions of the front stack into that
order. -/
theorem spec_c1_stack_dependency_order :
    stacksOf binProgram = ["network-stack", "db-stack", "api-stack"] ∧
    edgesOf binProgram =
      [("db-stack", "network-stack"), ("api-stack", "network-stack"),
       ("api-stack", "db-stack")] ∧
    frontStackDeclaredDependencies = [] ∧
    resolveEnvConfig devContext "dev" =
      Except.ok { api := devAPIProps, network := devNetworkProps, db := devDBProps } ∧
    (∀ order, validApplyOrder (edgesOf binProgram) (stacksOf binProgram) order ↔
        order = ["network-stack", "db-stack", "api-stack"]) ∧
    (∀ order,
        validApplyOrder (edgesOf binProgram) ("front-stack" :: stacksOf binProgram) order ↔
        order ∈ [["front-stack", "network-stack", "db-stack", "api-stack"],
                 ["network-stack", "front-stack", "db-stack", "api-stack"],
                 ["network-stack", "db-stack", "front-stack", "api-stack"],
                 ["network-stack", "db-stack", "api-stack", "front-stack"]]) := by
  refine ⟨rfl, rfl, rfl, rfl, ?_, ?_⟩
  · intro order
    constructor
    · intro h
      exact perm_elim
        (P := fun o => validApplyOrder (edgesOf binProgram) (stacksOf binProgram) o →
          o = ["network-stack", "db-stack", "api-stack"])
        (stacksOf binProgram) (by decide) order h.1 h
    · intro h
      subst h
      decide
  · intro order
    constructor
    · intro h
      exact perm_elim
        (P := fun o =>
          validApplyOrder (edgesOf binProgram) ("front-stack" :: stacksOf binProgram) o →
          o ∈ [["front-stack", "network-stack", "db-stack", "api-stack"],
               ["network-stack", "front-stack", "db-stack", "api-stack"],
               ["network-stack", "db-stack", "front-stack", "api-stack"],
               ["network-stack", "db-stack", "api-stack", "front-stack"]])
        ("front-stack" :: stacksOf binProgram) (by decide) order h.1 h
    · intro h
      rcases List.mem_cons.mp h with rfl | h
      · decide
      rcases List.mem_cons.mp h with rfl | h
      · decide
      rcases List.mem_cons.mp h with rfl | h
      · decide
      rcases List.mem_cons.mp h with rfl | h
      · decide
      · exact absurd h (List.not_mem_nil _)

/-! ## C6: validation failures abort synthesis before anything applies -/

theorem mapSubnetConfigurations_invalid :
    ∀ (l : List SubnetConfigurationProps), (∃ sc ∈ l, sc.subnetType ∉ validSubnetTypes) →
      mapSubnetConfigurations l = Except.error "Invalid subnet type" := by
  intro l
  induction l with
  | nil =>
    rintro ⟨sc, h, _⟩
    exact absurd h (List.not_mem_nil sc)
  | cons a rest ih =>
    rintro ⟨sc, hmem, hbad⟩
    by_cases hhead : a.subnetType ∈ validSubnetTypes
    · have htail : ∃ sc ∈ rest, sc.subnetType ∉ validSubnetTypes := by
        rcases List.mem_cons.mp hmem with rfl | h
        · exact absurd hhead hbad
        · exact ⟨sc, h, hbad⟩
      obtain ⟨t, ht⟩ := getSubnetType_ok_of_valid _ hhead
      simp [mapSubnetConfigurations, ht, ih htail, except_bind_ok_left,
        except_bind_error_left]
    · simp [mapSubnetConfigurations, getSubnetType_invalid _ hhead,
        except_bind_error_left]

theorem buildNetworkStack_invalid (p : NetworkProps)
    (h : networkPropsInvalidSubnet p) :
    buildNetworkStack p = Except.error "Invalid subnet type" := by
  simp [buildNetworkStack, mapSubnetConfigurations_invalid _ h, except_bind_error_left]

theorem buildDBStack_invalid (p : DBProps) (h : dbPropsInvalidEnum p) :
    ∃ e, buildDBStack p = Except.error e ∧ e ∈ unknownInstanceClassOrSizeMessages := by
  cases hwc : getRDSInstanceClass p.cluster.«instance».writer.instanceClass with
  | error e =>
    refine ⟨"Invalid instance class", ?_, by simp [unknownInstanceClassOrSizeMessages]⟩
    have : e = "Invalid instance class" := by
      by_cases hm : p.cluster.«instance».writer.instanceClass ∈ validInstanceClasses
      · obtain ⟨c, hc⟩ : ∃ c, getRDSInstanceClass p.cluster.«instance».writer.instanceClass
            = Except.ok c := by
          simp only [validInstanceClasses, List.mem_cons, List.not_mem_nil, or_false] at hm
          rcases hm with h | h | h <;> rw [getRDSInstanceClass, h] <;> simp
        rw [hc] at hwc
        exact Except.noConfusion hwc
      · rw [getRDSInstanceClass_invalid _ hm] at hwc
        exact (Except.error.injEq _ _ ▸ hwc).symm ▸ rfl
    subst this
    simp [buildDBStack, hwc, except_bind_error_left]
  | ok wc =>
    cases hws : getRDSInstanceSize p.cluster.«instance».writer.instanceSize with
    | error e =>
      have hm : p.cluster.«instance».writer.instanceSize ∉ validInstanceSizes := by
        intro hmem
        simp only [validInstanceSizes, List.mem_cons, List.not_mem_nil, or_false] at hmem
        rcases hmem with h | h | h <;> rw [getRDSInstanceSize, h] at hws <;> simp at hws
      rw [getRDSInstanceSize_invalid _ hm] at hws
      refine ⟨"Invalid instance size", ?_, by simp [unknownInstanceClassOrSizeMessages]⟩
      simp [buildDBStack, hwc, getRDSInstanceSize_invalid _ hm, except_bind_ok_left,
        except_bind_error_left]
    | ok ws =>
      cases hrc : getRDSInstanceClass p.cluster.«instance».reader.instanceClass with
      | error e =>
        have hm : p.cluster.«instance».reader.instanceClass ∉ validInstanceClasses := by
          intro hmem
          simp only [validInstanceClasses, List.mem_cons, List.not_mem_nil, or_false] at hmem
          rcases hmem with h | h | h <;> rw [getRDSInstanceClass, h] at hrc <;> simp at hrc
        refine ⟨"Invalid instance class", ?_, by simp [unknownInstanceClassOrSizeMessages]⟩
        simp [buildDBStack, hwc, hws, getRDSInstanceClass_invalid _ hm,
          except_bind_ok_left, except_bind_error_left]
      | ok rc =>
        cases hrs : getRDSInstanceSize p.cluster.«instance».reader.instanceSize with
        | error e =>
          have hm : p.cluster.«instance».reader.instanceSize ∉ validInstanceSizes := by
            intro hmem
            simp only [validInstanceSizes, List.mem_cons, List.not_mem_nil, or_false] at hmem
            rcases hmem with h | h | h <;> rw [getRDSInstanceSize, h] at hrs <;> simp at hrs
          refine ⟨"Invalid instance size", ?_, by simp [unknownInstanceClassOrSizeMessages]⟩
          simp [buildDBStack, hwc, hws, hrc, getRDSInstanceSize_invalid _ hm,
            except_bind_ok_left, except_bind_error_left]
        | ok rs =>
          exfalso
          rcases h with h | h | h | h
          · exact h (getRDSInstanceSize_ok_mem _ _ hws)
          · exact h (getRDSInstanceClass_ok_mem _ _ hwc)
          · exact h (getRDSInstanceSize_ok_mem _ _ hrs)
          · exact h (getRDSInstanceClass_ok_mem _ _ hrc)

/-- C6: a missing environment fails synthesis with `UnknownEnvironment`;
an invalid enum value in the DB or network subtree fails synthesis with a
thrown validation error; and a failed synthesis applies no resource
declaration at all — validation precedes any resource mutation in the
plan-then-apply model. -/
theorem spec_c6_validation_before_apply :
    ∀ (doc : List (String × EnvProps)) (env commit uri : String),
      (tryGetContext doc env = none →
        synthApp doc env commit uri = Except.error "UnknownEnvironment") ∧
      (∀ ep, tryGetContext doc env = some ep →
        dbPropsInvalidEnum ep.db ∨ networkPropsInvalidSubnet ep.network →
        ∃ e, synthApp doc env commit uri = Except.error e) ∧
      (∀ e, synthApp doc env commit uri = Except.error e →
        appliedResources (synthApp doc env commit uri) = none) := by
  intro doc env commit uri
  refine ⟨?_, ?_, ?_⟩
  · intro h
    simp [synthApp, resolveEnvConfig, h, except_bind_error_left]
  · intro ep hep hbad
    have hres : resolveEnvConfig doc env = Except.ok ep := by
      simp [resolveEnvConfig, hep]
    rcases hbad with hdb | hnet
    · cases hnetres : buildNetworkStack ep.network with
      | error e =>
        exact ⟨e, by simp [synthApp, hres, hnetres, except_bind_ok_left,
          except_bind_error_left]⟩
      | ok net =>
        obtain ⟨e, he, _⟩ := buildDBStack_invalid ep.db hdb
        exact ⟨e, by simp [synthApp, hres, hnetres, he, except_bind_ok_left,
          except_bind_error_left]⟩
    · exact ⟨"Invalid subnet type", by simp [synthApp, hres,
        buildNetworkStack_invalid ep.network hnet, except_bind_ok_left,
        except_bind_error_left]⟩
  · intro e h
    simp [appliedResources, h]

/-- Witness for C6: the absent `prod` environment fails synthesis and
nothing is applied. -/
theorem spec_c6_witness :
    synthApp devContext "prod" "abc123" "repo-uri" =
      Except.error "UnknownEnvironment" ∧
    appliedResources (synthApp devContext "prod" "abc123" "repo-uri") = none :=
  ⟨(spec_c6_validation_before_apply devContext "prod" "abc123" "repo-uri").1 rfl,
   (spec_c6_validation_before_apply devContext "prod" "abc123" "repo-uri").2.2
     "UnknownEnvironment"
     ((spec_c6_validation_before_apply devContext "prod" "abc123" "repo-uri").1 rfl)⟩

/-! ## C7: the declared database cluster -/

/-- C7: every accepted DB configuration yields a cluster with one writer,
exactly one reader (hence at least one), the dedicated `db-sg` security
group as its only security group, and a read-replica-count auto-scaling
policy tracking reader average CPU utilization with the configured
min/max capacity, target value and cooldowns unchanged. -/
theorem spec_c7_db_cluster_shape (p : DBProps) (res : DBStackModel)
    (h : buildDBStack p = Except.ok res) :
    res.cluster.writer.instanceIdentifier = "instance1" ∧
    res.cluster.readers.length = 1 ∧
    res.securityGroup.securityGroupName = "db-sg" ∧
    res.cluster.securityGroups = [res.securityGroup.securityGroupName] ∧
    res.scalableTarget.scalableDimension = "rds:cluster:ReadReplicaCount" ∧
    res.scalableTarget.minCapacity = p.cluster.scalableTarget.minCapacity ∧
    res.scalableTarget.maxCapacity = p.cluster.scalableTarget.maxCapacity ∧
    res.scalingPolicy.predefinedMetric = "RDSReaderAverageCPUUtilization" ∧
    res.scalingPolicy.targetValue = p.cluster.scalableTarget.targetValue ∧
    res.scalingPolicy.scaleInCooldownSeconds = p.cluster.scalableTarget.scaleInCooldown ∧
    res.scalingPolicy.scaleOutCooldownSeconds = p.cluster.scalableTarget.scaleOutCooldown := by
  cases hwc : getRDSInstanceClass p.cluster.«instance».writer.instanceClass with
  | error e => rw [buildDBStack, hwc, except_bind_error_left] at h; exact Except.noConfusion h
  | ok wc =>
  cases hws : getRDSInstanceSize p.cluster.«instance».writer.instanceSize with
  | error e =>
    rw [buildDBStack, hwc, except_bind_ok_left, hws, except_bind_error_left] at h
    exact Except.noConfusion h
  | ok ws =>
  cases hrc : getRDSInstanceClass p.cluster.«instance».reader.instanceClass with
  | error e =>
    rw [buildDBStack, hwc, except_bind_ok_left, hws, except_bind_ok_left, hrc,
      except_bind_error_left] at h
    exact Except.noConfusion h
  | ok rc =>
  cases hrs : getRDSInstanceSize p.cluster.«instance».reader.instanceSize with
  | error e =>
    rw [buildDBStack, hwc, except_bind_ok_left, hws, except_bind_ok_left, hrc,
      except_bind_ok_left, hrs, except_bind_error_left] at h
    exact Except.noConfusion h
  | ok rs =>
    rw [buildDBStack, hwc, except_bind_ok_left, hws, except_bind_ok_left, hrc,
      except_bind_ok_left, hrs, except_bind_ok_left] at h
    cases h
    exact ⟨rfl, rfl, rfl, rfl, rfl, rfl, rfl, rfl, rfl, rfl, rfl⟩

/-- Witness for C7 at the `dev` configuration. -/
theorem spec_c7_witness :
    buildDBStack devDBProps = Except.ok devDBStackModel ∧
    devDBStackModel.cluster.readers.length = 1 ∧
    devDBStackModel.scalingPolicy.targetValue =
      devDBProps.cluster.scalableTarget.targetValue := by
  have h : buildDBStack devDBProps = Except.ok devDBStackModel := rfl
  have hc := spec_c7_db_cluster_shape devDBProps devDBStackModel h
  exact ⟨h, hc.2.1, hc.2.2.2.2.2.2.2.2.1⟩

/-! ## C5: the dependency/export resolver -/

theorem kahnAux_error (all : List SpecStack) :
    ∀ (fuel : Nat) (remaining placed : List SpecStack) (e : DepError),
      kahnAux all fuel remaining placed = Except.error e →
      e = DepError.CyclicDependency := by
  intro fuel
  induction fuel with
  | zero =>
    intro remaining placed e h
    cases remaining with
    | nil => exact Except.noConfusion h
    | cons r rs =>
      simp only [kahnAux] at h
      exact (Except.error.injEq _ _ ▸ h : DepError.CyclicDependency = e).symm
  | succ n ih =>
    intro remaining placed e h
    cases remaining with
    | nil => exact Except.noConfusion h
    | cons r rs =>
      simp only [kahnAux] at h
      cases hf : (r :: rs).find? (fun s => decide (isReady all placed s)) with
      | none =>
        rw [hf] at h
        exact (Except.error.injEq _ _ ▸ h : DepError.CyclicDependency = e).symm
      | some s =>
        rw [hf] at h
        exact ih _ _ _ h

theorem erase_cons_perm {s : SpecStack} {rem placed all : List SpecStack}
    (hs : s ∈ rem) (hperm : (rem ++ placed).Perm all) :
    (rem.erase s ++ s :: placed).Perm all := by
  refine List.Perm.trans List.perm_middle ?_
  refine List.Perm.trans ?_ hperm
  simpa using (List.perm_cons_erase hs).symm.append_right placed

theorem kahnAux_sound (all : List SpecStack) (hnd : all.Nodup) :
    ∀ (fuel : Nat) (remaining placed : List SpecStack) (order : List SpecStack),
      (remaining ++ placed).Perm all →
      (∀ t ∈ placed, ∀ u ∈ remaining, ¬ dependsOn t u) →
      placed.reverse.Pairwise (fun a b => ¬ dependsOn a b) →
      (∀ s ∈ placed, ¬ dependsOn s s) →
      kahnAux all fuel remaining placed = Except.ok order →
      validOrder all order := by
  intro fuel
  induction fuel with
  | zero =>
    intro remaining placed order hperm hcross hpw hdiag h
    cases remaining with
    | nil =>
      simp only [kahnAux, Except.ok.injEq] at h
      subst h
      refine ⟨(List.reverse_perm placed).trans (by simpa using hperm), hpw, ?_⟩
      intro s hs
      exact hdiag s (List.mem_reverse.mp hs)
    | cons r rs => exact Except.noConfusion h
  | succ n ih =>
    intro remaining placed order hperm hcross hpw hdiag h
    cases remaining with
    | nil =>
      simp only [kahnAux, Except.ok.injEq] at h
      subst h
      refine ⟨(List.reverse_perm placed).trans (by simpa using hperm), hpw, ?_⟩
      intro s hs
      exact hdiag s (List.mem_reverse.mp hs)
    | cons r rs =>
      simp only [kahnAux] at h
      cases hf : (r :: rs).find? (fun s => decide (isReady all placed s)) with
      | none =>
        rw [hf] at h
        exact Except.noConfusion h
      | some s =>
        rw [hf] at h
        have hsmem : s ∈ r :: rs := List.mem_of_find?_eq_some hf
        have hsready : isReady all placed s := by
          have h1 := List.find?_some hf
          simpa using h1
        have hnodup : ((r :: rs) ++ placed).Nodup := hperm.nodup_iff.mpr hnd
        have hdisj : (r :: rs).Disjoint placed := (List.nodup_append.mp hnodup).2.2
        refine ih ((r :: rs).erase s) (s :: placed) order
          (erase_cons_perm hsmem hperm) ?_ ?_ ?_ h
        · intro t ht u hu
          have humem : u ∈ r :: rs := List.mem_of_mem_erase hu
          rcases List.mem_cons.mp ht with rfl | htp
          · rintro ⟨e, he, hprod⟩
            have huall : u ∈ all := hperm.subset (List.mem_append_left _ humem)
            exact hdisj humem (hsready e he u huall hprod)
          · exact hcross t htp u humem
        · rw [List.reverse_cons]
          refine List.pairwise_append.mpr ⟨hpw, by simp, ?_⟩
          intro a ha b hb
          rw [List.mem_singleton] at hb
          subst hb
          exact hcross a (List.mem_reverse.mp ha) b hsmem
        · intro x hx
          rcases List.mem_cons.mp hx with rfl | hxp
          · rintro ⟨e, he, hprod⟩
            have hxall : x ∈ all := hperm.subset (List.mem_append_left _ hsmem)
            exact hdisj hsmem (hsready e he x hxall hprod)
          · exact hdiag x hxp

theorem exists_min_free :
    ∀ (V : List SpecStack), V.Pairwise (fun a b => ¬ dependsOn a b) →
      (∀ s ∈ V, ¬ dependsOn s s) →
      ∀ (rem : List SpecStack), rem ≠ [] → (∀ u ∈ rem, u ∈ V) →
      ∃ s ∈ rem, ∀ t ∈ rem, ¬ dependsOn s t := by
  intro V
  induction V with
  | nil =>
    intro _ _ rem hne hsub
    cases rem with
    | nil => exact absurd rfl hne
    | cons a l => exact absurd (hsub a (List.mem_cons_self a l)) (List.not_mem_nil a)
  | cons v V' ih =>
    intro hpw hdiag rem hne hsub
    by_cases hv : v ∈ rem
    · refine ⟨v, hv, ?_⟩
      intro t ht
      rcases List.mem_cons.mp (hsub t ht) with rfl | htV
      · exact hdiag t (List.mem_cons_self t V')
      · exact (List.pairwise_cons.mp hpw).1 t htV
    · have hsub' : ∀ u ∈ rem, u ∈ V' := by
        intro u hu
        rcases List.mem_cons.mp (hsub u hu) with rfl | h
        · exact absurd hu hv
        · exact h
      exact ih (List.pairwise_cons.mp hpw).2
        (fun s hs => hdiag s (List.mem_cons_of_mem v hs)) rem hne hsub'

theorem kahnAux_complete (all : List SpecStack) (V : List SpecStack)
    (hV : validOrder all V) :
    ∀ (fuel : Nat) (remaining placed : List SpecStack),
      remaining.length ≤ fuel →
      (remaining ++ placed).Perm all →
      ∃ order, kahnAux all fuel remaining placed = Except.ok order := by
  intro fuel
  induction fuel with
  | zero =>
    intro remaining placed hlen hperm
    cases remaining with
    | nil => exact ⟨placed.reverse, rfl⟩
    | cons r rs => simp at hlen
  | succ n ih =>
    intro remaining placed hlen hperm
    cases remaining with
    | nil => exact ⟨placed.reverse, rfl⟩
    | cons r rs =>
      have hsub : ∀ u ∈ r :: rs, u ∈ V := by
        intro u hu
        exact hV.1.symm.subset (hperm.subset (List.mem_append_left _ hu))
      obtain ⟨s, hsrem, hsmin⟩ :=
        exists_min_free V hV.2.1 hV.2.2 (r :: rs) (by simp) hsub
      have hsready : isReady all placed s := by
        intro e he t ht hprod
        rcases List.mem_append.mp (hperm.symm.subset ht) with hrem | hpl
        · exact absurd ⟨e, he, hprod⟩ (hsmin t hrem)
        · exact hpl
      have hfind : ((r :: rs).find? (fun x => decide (isReady all placed x))).isSome := by
        rw [List.find?_isSome]
        exact ⟨s, hsrem, decide_eq_true hsready⟩
      obtain ⟨s', hf⟩ := Option.isSome_iff_exists.mp hfind
      have hs'mem : s' ∈ r :: rs := List.mem_of_find?_eq_some hf
      have hlen' : ((r :: rs).erase s').length ≤ n := by
        rw [List.length_erase_of_mem hs'mem]
        simpa using Nat.le_of_succ_le_succ (by simpa using hlen)
      obtain ⟨order, ho⟩ := ih _ _ hlen' (erase_cons_perm hs'mem hperm)
      refine ⟨order, ?_⟩
      simp only [kahnAux]
      rw [hf]
      exact ho

theorem not_hasUnresolvedExport_iff (stackSet : List SpecStack) :
    ¬ hasUnresolvedExport stackSet ↔
      ∀ s ∈ stackSet, ∀ e ∈ s.requiredExports, ∃ t ∈ stackSet, e ∈ t.producedExports := by
  constructor
  · intro h s hs e he
    by_contra hno
    push_neg at hno
    exact h ⟨s, hs, e, he, hno⟩
  · rintro h ⟨s, hs, e, he, hall⟩
    obtain ⟨t, ht, hprod⟩ := h s hs e he
    exact hall t ht hprod

/-- C5: for any duplicate-free set of stacks, every order the resolver
returns is a valid application order (every stack after all producers of
its required exports); when some required export has no producer in the
set it fails with `UnresolvedExport`; otherwise it returns a valid order
whenever one exists, and fails with `CyclicDependency` whenever none
exists — never silently picking an order. -/
theorem spec_c5_dependency_export_resolver (stackSet : List SpecStack)
    (hnd : stackSet.Nodup) :
    (∀ order, resolveOrder stackSet = Except.ok order → validOrder stackSet order) ∧
    (hasUnresolvedExport stackSet →
      resolveOrder stackSet = Except.error DepError.UnresolvedExport) ∧
    (¬ hasUnresolvedExport stackSet → (∃ V, validOrder stackSet V) →
      ∃ order, resolveOrder stackSet = Except.ok order ∧ validOrder stackSet order) ∧
    (¬ hasUnresolvedExport stackSet → (∀ V, ¬ validOrder stackSet V) →
      resolveOrder stackSet = Except.error DepError.CyclicDependency) := by
  have hinit : (stackSet ++ []).Perm stackSet := by
    simp
  refine ⟨?_, ?_, ?_, ?_⟩
  · intro order h
    unfold resolveOrder at h
    split_ifs at h with hcond
    exact kahnAux_sound stackSet hnd _ _ _ _ hinit (by simp) (by simp) (by simp) h
  · intro hu
    unfold resolveOrder
    rw [if_neg]
    intro hcond
    exact (not_hasUnresolvedExport_iff stackSet).mpr hcond hu
  · rintro hnu ⟨V, hV⟩
    have hcond := (not_hasUnresolvedExport_iff stackSet).mp hnu
    unfold resolveOrder
    rw [if_pos hcond]
    obtain ⟨order, ho⟩ :=
      kahnAux_complete stackSet V hV stackSet.length stackSet [] (le_refl _) hinit
    exact ⟨order, ho,
      kahnAux_sound stackSet hnd _ _ _ _ hinit (by simp) (by simp) (by simp) ho⟩
  · intro hnu hnone
    have hcond := (not_hasUnresolvedExport_iff stackSet).mp hnu
    unfold resolveOrder
    rw [if_pos hcond]
    cases hk : kahnAux stackSet stackSet.length stackSet [] with
    | ok order =>
      exact absurd
        (kahnAux_sound stackSet hnd _ _ _ _ hinit (by simp) (by simp) (by simp) hk)
        (hnone order)
    | error e =>
      rw [kahnAux_error stackSet _ _ _ _ hk]

/-- Witness for C5: a singleton stack set requiring an export nobody
produces fails with `UnresolvedExport`. -/
theorem spec_c5_witness :
    resolveOrder
      [{ stackName := "api-stack"
         requiredExports := ["missing-export"]
         producedExports := [] }] = Except.error DepError.UnresolvedExport :=
  (spec_c5_dependency_export_resolver
    [{ stackName := "api-stack"
       requiredExports := ["missing-export"]
       producedExports := [] }] (by decide)).2.1 (by decide)
